import Mathlib

/-!
Verification of the ComfyUI serverless handler (deploy/serverless/handler.py).

The Python module is shallowly embedded: every function the claims touch is
translated into a computable Lean definition.  Conventions used throughout:

* Python floats that the handler merely passes around (durations, cfg scales,
  fps, speeds) are modelled as rationals;
* the caller parameter dictionary is modelled through the typed view the
  handler reads from it: a record with one `Option` field per key the code
  accesses, `none` meaning the key is absent (`dict.get` with a default
  becomes `Option.getD`);
* file-system state and the network collaborators (ffprobe, the ComfyUI
  HTTP API, Supabase) are modelled as an explicit environment record `Env`
  of pure functions; fallible calls return `Except String`, mirroring the
  exceptions the Python code raises and catches;
* Python dictionaries returned to the caller are modelled as records whose
  fields are `Option`s: a field is `none` exactly when the corresponding key
  is absent from the dictionary the code builds.
-/

namespace ComfyHandler

/-! ## Constants (handler.py lines 29-49) -/

def HANDLER_VERSION : String := "v34"

def COMFYUI_HOST : String := "127.0.0.1"

def COMFYUI_PORT : Nat := 8188

def COMFYUI_URL : String := "http://127.0.0.1:8188"

def NETWORK_VOLUME : String := "/runpod-volume"

def COMFYUI_DIR : String := "/workspace/ComfyUI"

def COMFYUI_MODELS : String := "/workspace/ComfyUI/models"

def COMFYUI_INPUT : String := "/workspace/ComfyUI/input"

def OUTPUT_DIR : String := "/workspace/ComfyUI/output"

/-- `os.path.join` for two POSIX components, exactly as CPython joins one
further component `b` onto an accumulated path `a`: an absolute `b` resets
the path; otherwise a single separator is inserted unless `a` is empty or
already ends with one. -/
def ospj (a b : String) : String :=
  if b.data.head? = some '/' then b
  else if a = "" ∨ a.data.getLast? = some '/' then a ++ b
  else a ++ "/" ++ b

/-! ## Caller parameters

Typed view of the `input_data` dictionary: one field per key the handler
reads, `none` when the key is absent. -/

structure Params where
  action : Option String := none
  model : Option String := none
  prompt : Option String := none
  description : Option String := none
  negative_prompt : Option String := none
  width : Option Int := none
  height : Option Int := none
  steps : Option Int := none
  cfg_scale : Option Rat := none
  seed : Option Int := none
  text : Option String := none
  voice_sample : Option String := none
  sample_text : Option String := none
  speed : Option Rat := none
  vocoder : Option String := none
  portrait_image : Option String := none
  audio : Option String := none
  svd_checkpoint : Option String := none
  sonic_unet : Option String := none
  inference_steps : Option Int := none
  fps : Option Rat := none
  duration : Option Rat := none
  save_to_avatars : Option Bool := none
  avatar_name : Option String := none

/-! ## Duration resolution (handler.py lines 66-97)

`get_audio_duration` shells out to ffprobe; it is modelled by the
environment function `probe : String → Except String Rat` (the `.error`
case standing for the `RuntimeError` the Python function raises). -/

/-- The warning text of handler.py line 95.  Numeric rendering of the two
floats is modelled by the plain decimal rendering of the rationals. -/
def durationWarning (caller detected : Rat) : String :=
  "Caller duration (" ++ toString caller ++ "s) differs from detected (" ++
    toString detected ++ "s), using detected"

/-- `resolve_duration` (handler.py lines 81-97): always returns the probed
duration; warns when a caller hint differs from it by strictly more than
1.0 second. -/
def resolve_duration (probe : String → Except String Rat) (audio_path : String)
    (caller_duration : Option Rat) : Except String (Rat × Option String) :=
  match probe audio_path with
  | .error e => .error e
  | .ok detected =>
    let warning : Option String :=
      match caller_duration with
      | none => none
      | some c => if 1 < |detected - c| then some (durationWarning c detected) else none
    .ok (detected, warning)

/-! ## Input validation (handler.py lines 104-142) -/

/-- `validate_inputs`: aggregates all violations into a list of error
strings; `fsExists` models `os.path.exists` on the file system as observed
by the handler. -/
def validate_inputs (fsExists : String → Bool) (action : String) (params : Params) :
    List String :=
  if action = "lipsync" then
    let portrait := params.portrait_image.getD ""
    let audio := params.audio.getD ""
    let portrait_path := ospj COMFYUI_INPUT portrait
    let audio_path := ospj COMFYUI_INPUT audio
    (if portrait = "" then ["Missing required parameter: portrait_image"]
     else if fsExists portrait_path = false then ["Portrait not found: " ++ portrait_path]
     else []) ++
    (if audio = "" then ["Missing required parameter: audio"]
     else if fsExists audio_path = false then ["Audio not found: " ++ audio_path]
     else [])
  else if action = "tts" then
    let voice_sample := params.voice_sample.getD ""
    let text := params.text.getD ""
    let sample_path := ospj COMFYUI_INPUT voice_sample
    (if text = "" then ["Missing required parameter: text"] else []) ++
    (if voice_sample ≠ "" ∧ fsExists sample_path = false then
      ["Voice sample not found: " ++ sample_path]
     else [])
  else if action = "portrait" then []
  else []

/-! ## Execution graphs (handler.py lines 534-723)

A workflow is a JSON object mapping node ids to nodes; a node input is a
literal (string, int, float, bool) or a two-element list referencing
another node's output slot. -/

inductive IVal where
  | s : String → IVal
  | i : Int → IVal
  | q : Rat → IVal
  | b : Bool → IVal
  | ref : String → Nat → IVal
deriving DecidableEq, Repr

structure Node where
  class_type : String
  inputs : List (String × IVal)
deriving DecidableEq, Repr

def Workflow : Type := List (String × Node)

instance : DecidableEq Workflow := by
  unfold Workflow
  infer_instance

/-- `build_portrait_workflow` (handler.py lines 534-589).  `rand` models the
value of `int.from_bytes(os.urandom(4), "big")` drawn when the resolved
seed is the sentinel -1. -/
def build_portrait_workflow (params : Params) (rand : Nat) : Workflow :=
  let model := params.model.getD "sd_xl_base_1.0.safetensors"
  let prompt := params.prompt.getD (params.description.getD "A portrait")
  let negative := params.negative_prompt.getD "low quality, blurry, distorted"
  let width := params.width.getD 768
  let height := params.height.getD 1024
  let steps := params.steps.getD 20
  let cfg := params.cfg_scale.getD 7
  let seed0 := params.seed.getD (-1)
  let seed : Int := if seed0 = -1 then (rand : Int) else seed0
  [("3", { class_type := "KSampler",
           inputs := [("seed", .i seed), ("steps", .i steps), ("cfg", .q cfg),
                      ("sampler_name", .s "euler_ancestral"), ("scheduler", .s "normal"),
                      ("denoise", .q 1), ("model", .ref "4" 0), ("positive", .ref "6" 0),
                      ("negative", .ref "7" 0), ("latent_image", .ref "5" 0)] }),
   ("4", { class_type := "CheckpointLoaderSimple",
           inputs := [("ckpt_name", .s model)] }),
   ("5", { class_type := "EmptyLatentImage",
           inputs := [("width", .i width), ("height", .i height), ("batch_size", .i 1)] }),
   ("6", { class_type := "CLIPTextEncode",
           inputs := [("text", .s prompt), ("clip", .ref "4" 1)] }),
   ("7", { class_type := "CLIPTextEncode",
           inputs := [("text", .s negative), ("clip", .ref "4" 1)] }),
   ("8", { class_type := "VAEDecode",
           inputs := [("samples", .ref "3" 0), ("vae", .ref "4" 2)] }),
   ("9", { class_type := "SaveImage",
           inputs := [("filename_prefix", .s ("portrait_" ++ toString seed)),
                      ("images", .ref "8" 0)] })]

/-- `build_tts_workflow` (handler.py lines 592-636). -/
def build_tts_workflow (params : Params) (rand : Nat) : Workflow :=
  let text := params.text.getD "Hello world"
  let voice_sample := params.voice_sample.getD "voices/sample.wav"
  let sample_text := params.sample_text.getD ""
  let speed := params.speed.getD 1
  let seed0 := params.seed.getD (-1)
  let model := params.model.getD "F5TTS_v1_Base"
  let vocoder := params.vocoder.getD "vocos"
  let seed : Int := if seed0 = -1 then (rand : Int) else seed0
  [("1", { class_type := "LoadAudio",
           inputs := [("audio", .s voice_sample)] }),
   ("2", { class_type := "F5TTSAudioInputs",
           inputs := [("sample_audio", .ref "1" 0), ("sample_text", .s sample_text),
                      ("speech", .s text), ("seed", .i seed), ("model", .s model),
                      ("vocoder", .s vocoder), ("speed", .q speed),
                      ("model_type", .s "F5-TTS")] }),
   ("3", { class_type := "SaveAudioTensor",
           inputs := [("audio", .ref "2" 0), ("filename_prefix", .s "ComfyUI_TTS")] })]

/-- `build_lipsync_workflow` (handler.py lines 639-723).  The Python
`seed % 2147483647` (floor modulus with a positive modulus) is `Int.emod`,
which agrees with it on every integer. -/
def build_lipsync_workflow (params : Params) (audio_duration : Rat) (rand : Nat) :
    Workflow :=
  let portrait := params.portrait_image.getD "portrait.png"
  let audio := params.audio.getD "speech.wav"
  let svd_model := params.svd_checkpoint.getD "svd_xt_1_1.safetensors"
  let sonic_unet := params.sonic_unet.getD "unet.pth"
  let inference_steps := params.inference_steps.getD 25
  let fps := params.fps.getD 25
  let seed0 := params.seed.getD (-1)
  let seed1 : Int := if seed0 = -1 then (rand : Int) else seed0
  let seed : Int := seed1.emod 2147483647
  [("1", { class_type := "ImageOnlyCheckpointLoader",
           inputs := [("ckpt_name", .s ("video/" ++ svd_model))] }),
   ("2", { class_type := "LoadImage",
           inputs := [("image", .s portrait)] }),
   ("3", { class_type := "LoadAudio",
           inputs := [("audio", .s audio)] }),
   ("4", { class_type := "SONICTLoader",
           inputs := [("model", .ref "1" 0), ("sonic_unet", .s sonic_unet),
                      ("ip_audio_scale", .q 1), ("use_interframe", .b true),
                      ("dtype", .s "fp16")] }),
   ("5", { class_type := "SONIC_PreData",
           inputs := [("clip_vision", .ref "1" 1), ("vae", .ref "1" 2),
                      ("audio", .ref "3" 0), ("image", .ref "2" 0),
                      ("min_resolution", .i 512), ("duration", .q audio_duration),
                      ("expand_ratio", .i 1), ("weight_dtype", .ref "4" 1)] }),
   ("6", { class_type := "SONICSampler",
           inputs := [("model", .ref "4" 0), ("data_dict", .ref "5" 0),
                      ("seed", .i seed), ("randomize", .s "randomize"),
                      ("inference_steps", .i inference_steps),
                      ("dynamic_scale", .q 1), ("fps", .q fps)] }),
   ("7", { class_type := "VHS_VideoCombine",
           inputs := [("images", .ref "6" 0), ("audio", .ref "3" 0),
                      ("frame_rate", .ref "6" 1), ("loop_count", .i 0),
                      ("filename_prefix", .s "ComfyUI_LipSync"),
                      ("format", .s "video/h264-mp4"), ("pingpong", .b false),
                      ("save_output", .b true)] })]

/-- The literal stored under input key `key` of node `nid` of a workflow. -/
def wfInput (wf : Workflow) (nid key : String) : Option IVal :=
  match List.lookup nid wf with
  | none => none
  | some n => List.lookup key n.inputs

/-- Erase every input named "seed" from every node of a workflow: two
workflows are equal after `scrubSeed` exactly when they differ at most in
seed fields. -/
def scrubSeed (wf : Workflow) : Workflow :=
  wf.map (fun p => (p.1, { class_type := p.2.class_type,
                           inputs := p.2.inputs.filter (fun kv => kv.1 != "seed") }))

/-- On top of `scrubSeed`, also erase the seed-derived filename field of
the portrait SaveImage node (node "9"). -/
def scrubPortrait (wf : Workflow) : Workflow :=
  (scrubSeed wf).map (fun p =>
    if p.1 = "9" then
      (p.1, { class_type := p.2.class_type,
              inputs := p.2.inputs.filter (fun kv => kv.1 != "filename_prefix") })
    else p)

/-! ## Output extraction (handler.py lines 288-341)

A history's `outputs` value maps node ids to per-node result objects, each
mapping an output-category key to a list of file entries.  Dictionaries
are modelled as association lists in insertion order. -/

structure FileEntry where
  filename : String
  subfolder : Option String := none
deriving DecidableEq, Repr

def NodeOutput : Type := List (String × List FileEntry)

def Outputs : Type := List (String × NodeOutput)

instance : DecidableEq NodeOutput := by
  unfold NodeOutput
  infer_instance

instance : DecidableEq Outputs := by
  unfold Outputs
  infer_instance

structure OutFile where
  ftype : String
  filename : String
  subfolder : String
  path : String
deriving DecidableEq, Repr

/-- Descriptor built for one file entry of a known category
(handler.py lines 303-309 and the three analogous blocks). -/
def entryDescriptor (ftype : String) (e : FileEntry) : OutFile :=
  { ftype := ftype, filename := e.filename, subfolder := e.subfolder.getD "",
    path := ospj (ospj OUTPUT_DIR (e.subfolder.getD "")) e.filename }

/-- Entries stored in a node output under a given key (empty when the key
is absent, as the membership tests of the source skip absent keys). -/
def entriesUnder (node : NodeOutput) (key : String) : List FileEntry :=
  (List.lookup key node).getD []

/-- `get_output_files` (handler.py lines 288-341): scans every node result
in order, collecting "images" entries as images, "gifs" and "videos"
entries as videos, and "audio" entries as audio, in that per-node order. -/
def get_output_files (outputs : Outputs) : List OutFile :=
  outputs.flatMap (fun p =>
    (entriesUnder p.2 "images").map (entryDescriptor "image") ++
    (entriesUnder p.2 "gifs").map (entryDescriptor "video") ++
    (entriesUnder p.2 "videos").map (entryDescriptor "video") ++
    (entriesUnder p.2 "audio").map (entryDescriptor "audio"))

/-! ## Engine results (handler.py lines 273-285 and 813-817) -/

structure StatusInfo where
  status_str : Option String := none
  messages : List String := []
deriving DecidableEq, Repr

structure History where
  status : Option StatusInfo := none
  outputs : Outputs := []
deriving DecidableEq

/-- Python `repr` of a list of plain strings, as interpolated by the
f-string of handler.py line 820. -/
def pyQuote (s : String) : String :=
  (Char.ofNat 39).toString ++ s ++ (Char.ofNat 39).toString

def pyReprStrList (l : List String) : String :=
  "[" ++ String.intercalate ", " (l.map pyQuote) ++ "]"

/-! ## Delivery results and responses

Dictionaries built for the caller are records of `Option`s: a field is
`none` exactly when the code does not put the corresponding key into the
dictionary. -/

/-- Shape of the dictionary returned by `upload_to_supabase`
(handler.py lines 415-420) minus the "path" key, which is always the
`remote_path` argument and is supplied at the call site. -/
structure UpInfo where
  url : String
  signed_url : Option String := none
  size : Nat
deriving DecidableEq, Repr

/-- One element of the response's "files" list (handler.py lines 877-905). -/
structure ResultEntry where
  rtype : String
  filename : String
  data : Option String := none
  encoding : Option String := none
  path : Option String := none
  size_bytes : Option Nat := none
  url : Option String := none
  signed_url : Option String := none
  size : Option Nat := none
  upload_error : Option String := none
deriving DecidableEq, Repr

/-- The dictionary the handler returns.  Fields up to `lipsync_ready` are
the keys of the health, error and success responses; the remaining fields
are the keys of the `get_debug_info` dictionary (handler.py lines
427-527), which is returned as-is for the debug action.  Note that none of
the debug keys is "status". -/
structure Response where
  status : Option String := none
  version : Option String := none
  comfyui_url : Option String := none
  supabase_configured : Option Bool := none
  action : Option String := none
  error : Option String := none
  validation_errors : Option (List String) := none
  prompt_id : Option String := none
  raw_status : Option StatusInfo := none
  raw_outputs : Option Outputs := none
  files : Option (List ResultEntry) := none
  storage : Option String := none
  warnings : Option (List String) := none
  avatar_saved : Option String := none
  lipsync_ready : Option Bool := none
  network_volume_path : Option String := none
  network_volume_exists : Option Bool := none
  network_volume_contents : Option (List String) := none
  comfyui_dir_exists : Option Bool := none
  checkpoints_path : Option String := none
  checkpoints_exists : Option Bool := none
  checkpoints_contents : Option (List String) := none
  sonic_path : Option String := none
  sonic_exists : Option Bool := none
  sonic_contents : Option (List String) := none
  comfyui_process_alive : Option Bool := none
  voices_volume_path : Option String := none
  voices_volume_exists : Option Bool := none
  voices_comfyui_path : Option String := none
  voices_comfyui_is_symlink : Option Bool := none
  voices_contents : Option (List String) := none
  avatars_volume_path : Option String := none
  avatars_volume_exists : Option Bool := none
  avatars_comfyui_path : Option String := none
  avatars_comfyui_is_symlink : Option Bool := none
  avatars_contents : Option (List String) := none
  f5_tts_path : Option String := none
  f5_tts_exists : Option Bool := none
  f5_tts_contents : Option (List String) := none
  video_path : Option String := none
  video_exists : Option Bool := none
  video_contents : Option (List String) := none
  comfyui_api_status : Option String := none

/-! ## Environment

All effects of the handler are mediated by this record of pure functions:
the file system as observed after `setup_symlinks` ran, the external
probe, the ComfyUI HTTP API, Supabase, and the random source.  Fallible
operations return `Except String`, the `.error` case standing for the
exception the Python call raises. -/

structure Env where
  fsExists : String → Bool
  fsIsLink : String → Bool
  listDir : String → List String
  fsSize : String → Nat
  /-- `file_to_base64` (handler.py lines 360-363): base64 content of the
  file at a path. -/
  fsContent : String → String
  /-- `get_audio_duration` via ffprobe (handler.py lines 66-78). -/
  probe : String → Except String Rat
  /-- `start_comfyui` (handler.py lines 221-251): ok, or the startup
  failure it raises. -/
  comfyStart : Except String Unit
  /-- `queue_prompt` (handler.py lines 258-270): a prompt id, or the
  rejection error it raises. -/
  queue : Workflow → Except String String
  /-- `wait_for_completion` (handler.py lines 273-285): the history entry,
  or the timeout error it raises. -/
  wait : String → Except String History
  /-- `upload_to_supabase` outcome for a local path and a remote path
  (handler.py lines 371-420). -/
  upload : String → String → Except String UpInfo
  /-- `supabase_enabled()` (handler.py lines 366-368). -/
  supabase : Bool
  /-- The `int.from_bytes(os.urandom(4), "big")` draw of the request. -/
  rand : Nat
  /-- `date.today().isoformat()`. -/
  today : String
  /-- `str(uuid.uuid4())[:8]` for the i-th file of the delivery loop. -/
  uid8 : Nat → String
  /-- `comfyui_process is not None and comfyui_process.poll() is None`. -/
  processAlive : Bool
  /-- Status of the GET on /system_stats issued by `get_debug_info`. -/
  apiStatus : String

/-! ## Delivery pipeline (handler.py lines 864-909) -/

/-- The remote path chosen for the i-th file (handler.py lines 884-886). -/
def remotePath (env : Env) (i : Nat) (filename : String) : String :=
  "outputs/" ++ env.today ++ "/" ++ env.uid8 i ++ "/" ++ filename

/-- The loop body of handler.py lines 868-905 for the i-th output file:
`none` when the file is skipped because it no longer exists. -/
def deliverOne (env : Env) (i : Nat) (f : OutFile) : Option ResultEntry :=
  if env.fsExists f.path = false then none
  else
    let file_size := env.fsSize f.path
    let base : ResultEntry := { rtype := f.ftype, filename := f.filename }
    some (if env.supabase then
      let rp := remotePath env i f.filename
      match env.upload f.path rp with
      | .ok u =>
        { base with url := some u.url, signed_url := u.signed_url,
                    path := some rp, size := some u.size }
      | .error e =>
        { base with data := some (env.fsContent f.path),
                    encoding := some "base64", upload_error := some e }
    else
      if file_size < 10 * 1024 * 1024 then
        { base with data := some (env.fsContent f.path), encoding := some "base64" }
      else
        { base with path := some f.path, size_bytes := some file_size })

/-- The whole delivery loop, in file order. -/
def deliverFiles (env : Env) (files : List OutFile) : List ResultEntry :=
  files.enum.filterMap (fun p => deliverOne env p.1 p.2)

/-- The paths removed by `cleanup_output_files` (handler.py lines 344-353):
every truthy path that exists on disk (a failing `os.remove` is caught and
only logged, so removal is modelled as succeeding). -/
def cleanup_output_files (fsExists : String → Bool) (files : List OutFile) :
    List String :=
  files.filterMap (fun f =>
    if f.path ≠ "" ∧ fsExists f.path = true then some f.path else none)

/-- The delivery stage of the handler (lines 864-909): the per-file results
together with the local paths deleted afterwards — the cleanup call is
guarded only by `use_supabase`, not by per-file upload success. -/
def deliverAndCleanup (env : Env) (files : List OutFile) :
    List ResultEntry × List String :=
  (deliverFiles env files,
   if env.supabase then cleanup_output_files env.fsExists files else [])

/-! ## Responses of the individual terminal conditions -/

/-- Response of the top-level `except` clause (handler.py lines 930-936). -/
def topError (e : String) : Response :=
  { status := some "error", version := some HANDLER_VERSION, error := some e }

/-- Health response (handler.py lines 750-756). -/
def healthResp (env : Env) : Response :=
  { status := some "healthy", version := some HANDLER_VERSION,
    comfyui_url := some COMFYUI_URL, supabase_configured := some env.supabase }

/-- `get_debug_info` (handler.py lines 427-527), key for key; keys the code
only sets conditionally are `none` in the other case.  It has no "status"
key. -/
def debugResp (env : Env) : Response :=
  let cpPath := ospj COMFYUI_MODELS "checkpoints"
  let sonicPath := ospj COMFYUI_MODELS "sonic"
  let voicesVol := ospj NETWORK_VOLUME "voices"
  let voicesIn := ospj COMFYUI_INPUT "voices"
  let avatarsVol := ospj NETWORK_VOLUME "avatars"
  let avatarsIn := ospj COMFYUI_INPUT "avatars"
  let f5Path := ospj COMFYUI_MODELS "f5_tts"
  let videoPath := ospj COMFYUI_MODELS "video"
  { version := some HANDLER_VERSION,
    network_volume_path := some NETWORK_VOLUME,
    network_volume_exists := some (env.fsExists NETWORK_VOLUME),
    network_volume_contents :=
      some (if env.fsExists NETWORK_VOLUME then (env.listDir NETWORK_VOLUME).take 20 else []),
    comfyui_dir_exists := some (env.fsExists COMFYUI_DIR),
    checkpoints_path := some cpPath,
    checkpoints_exists := some (env.fsExists cpPath),
    checkpoints_contents :=
      some (if env.fsExists cpPath then (env.listDir cpPath).take 20 else []),
    sonic_path := some sonicPath,
    sonic_exists := some (env.fsExists sonicPath),
    sonic_contents :=
      some (if env.fsExists sonicPath then (env.listDir sonicPath).take 20 else []),
    supabase_configured := some env.supabase,
    comfyui_process_alive := some env.processAlive,
    voices_volume_path := some voicesVol,
    voices_volume_exists := some (env.fsExists voicesVol),
    voices_comfyui_path := some voicesIn,
    voices_comfyui_is_symlink := some (env.fsIsLink voicesIn),
    voices_contents :=
      some (if env.fsExists voicesVol then (env.listDir voicesVol).take 20 else []),
    avatars_volume_path := some avatarsVol,
    avatars_volume_exists := some (env.fsExists avatarsVol),
    avatars_comfyui_path := some avatarsIn,
    avatars_comfyui_is_symlink := some (env.fsIsLink avatarsIn),
    avatars_contents :=
      some (if env.fsExists avatarsVol then (env.listDir avatarsVol).take 20 else []),
    f5_tts_path := some f5Path,
    f5_tts_exists := some (env.fsExists f5Path),
    f5_tts_contents :=
      if env.fsExists f5Path then some ((env.listDir f5Path).take 20) else none,
    video_path := some videoPath,
    video_exists := some (env.fsExists videoPath),
    video_contents :=
      if env.fsExists videoPath then some ((env.listDir videoPath).take 20) else none,
    comfyui_api_status := if env.processAlive then some env.apiStatus else none }

/-- The `save_to_avatars` block (handler.py lines 846-862): the avatar path
recorded when a portrait is copied into the avatars folder. -/
def avatarOf (env : Env) (input : Params) (action : String) (files : List OutFile) :
    Option String :=
  if action = "portrait" ∧ input.save_to_avatars = some true then
    let name0 := input.avatar_name.getD "generated_portrait.png"
    let name := if (".png".data).isSuffixOf name0.data then name0 else name0 ++ ".png"
    match files.find? (fun f => f.ftype == "image" && env.fsExists f.path) with
    | some _ => some ("avatars/" ++ name)
    | none => none
  else none

/-- Lines 806-928: queue the workflow, await completion, check the engine
status, extract, deliver and assemble the success response. -/
def runStage (env : Env) (input : Params) (action : String) (wf : Workflow)
    (warnings : List String) : Response :=
  match env.queue wf with
  | .error e => topError e
  | .ok prompt_id =>
    match env.wait prompt_id with
    | .error e => topError e
    | .ok history =>
      let status_info := history.status.getD {}
      let status_str := status_info.status_str.getD "unknown"
      if status_str ≠ "success" then
        let error_msg := "Workflow failed with status: " ++ status_str ++
          (if status_info.messages ≠ [] then
            ", messages: " ++ pyReprStrList status_info.messages
           else "")
        { status := some "error", version := some HANDLER_VERSION,
          action := some action, error := some error_msg,
          prompt_id := some prompt_id, raw_status := some status_info,
          raw_outputs := some history.outputs }
      else
        let output_files := get_output_files history.outputs
        if output_files = [] then
          { status := some "error", version := some HANDLER_VERSION,
            action := some action,
            error := some "Workflow produced no output files",
            prompt_id := some prompt_id, raw_outputs := some history.outputs }
        else
          let avatar_filename := avatarOf env input action output_files
          let results := (deliverAndCleanup env output_files).1
          { status := some "success", version := some HANDLER_VERSION,
            action := some action, files := some results,
            prompt_id := some prompt_id,
            storage := some (if env.supabase then "supabase" else "base64"),
            warnings := if warnings ≠ [] then some warnings else none,
            avatar_saved := avatar_filename,
            lipsync_ready := if avatar_filename.isSome then some true else none }

/-- `handler` (handler.py lines 730-936).  The function is total: every
exception a pipeline stage can raise is an `Except.error` of the
environment, consumed here exactly where the Python `try`/`except`
boundaries sit, so no exception escapes to the caller. -/
def handler (env : Env) (input : Params) : Response :=
  let action := input.action.getD "portrait"
  if action = "health" then healthResp env
  else if action = "debug" then debugResp env
  else
    let validation_errors := validate_inputs env.fsExists action input
    if validation_errors ≠ [] then
      { status := some "error", version := some HANDLER_VERSION,
        action := some action, error := some "Input validation failed",
        validation_errors := some validation_errors }
    else
      match env.comfyStart with
      | .error e => topError e
      | .ok _ =>
        if action = "portrait" then
          runStage env input action (build_portrait_workflow input env.rand) []
        else if action = "tts" then
          runStage env input action (build_tts_workflow input env.rand) []
        else if action = "lipsync" then
          let audio_file := input.audio.getD ""
          let audio_path := ospj COMFYUI_INPUT audio_file
          match resolve_duration env.probe audio_path input.duration with
          | .error e => topError e
          | .ok dw =>
            runStage env input action
              (build_lipsync_workflow input dw.1 env.rand) dw.2.toList
        else
          { status := some "error", version := some HANDLER_VERSION,
            error := some ("Unknown action: " ++ action) }

/-! ## Concrete environments for closed statements -/

/-- A minimal environment: empty file system, no Supabase, every external
call failing. -/
def env0 : Env :=
  { fsExists := fun _ => false, fsIsLink := fun _ => false,
    listDir := fun _ => [], fsSize := fun _ => 0, fsContent := fun _ => "",
    probe := fun _ => .error "probe failed",
    comfyStart := .ok (), queue := fun _ => .error "queue failed",
    wait := fun _ => .error "wait failed",
    upload := fun _ _ => .error "upload failed",
    supabase := false, rand := 0, today := "2026-10-12",
    uid8 := fun _ => "abcd1234", processAlive := false, apiStatus := "200" }

/-- A video output file of the delivery stage. -/
def fOut : OutFile :=
  { ftype := "video", filename := "out.mp4", subfolder := "",
    path := "/workspace/ComfyUI/output/out.mp4" }

/-- Supabase configured, every file present (5 bytes, base64 content
"QUJD"), every upload failing. -/
def envUploadFail : Env :=
  { env0 with supabase := true, fsExists := fun _ => true,
              fsSize := fun _ => 5, fsContent := fun _ => "QUJD",
              upload := fun _ _ => .error "upload boom" }

/-- No Supabase, every file present and small (5 bytes). -/
def envSmallFile : Env :=
  { env0 with fsExists := fun _ => true, fsSize := fun _ => 5,
              fsContent := fun _ => "QUJD" }

/-- No Supabase, every file present and at the 10 MiB ceiling. -/
def envBigFile : Env :=
  { env0 with fsExists := fun _ => true, fsSize := fun _ => 10485760,
              fsContent := fun _ => "QUJD" }

/-! ## Theorems: C4, C7, C8 -/

/-- **C4.** For every media path and caller hint, `resolve_duration` returns
the probe-measured duration (never the hint), and it returns a warning
string if and only if a hint was supplied whose absolute difference from
the measured value strictly exceeds the tolerance 1.0.  In particular
measured 15.0 with hint 10.0 yields a warning together with 15.0, and
measured 10.5 with hint 10.0 yields no warning. -/
theorem resolve_duration_measured_and_warning_iff :
    (∀ (probe : String → Except String Rat) (path : String) (caller : Option Rat)
      (d : Rat), probe path = .ok d →
      ∃ w : Option String, resolve_duration probe path caller = .ok (d, w) ∧
        (w.isSome = true ↔ ∃ c, caller = some c ∧ 1 < |d - c|)) ∧
    (∃ w : String,
      resolve_duration (fun _ => .ok 15) "audio.wav" (some 10) = .ok (15, some w)) ∧
    resolve_duration (fun _ => .ok (21/2)) "audio.wav" (some 10) = .ok (21/2, none) := by
  refine ⟨?_, ?_, ?_⟩
  · intro probe path caller d h
    cases caller with
    | none =>
      refine ⟨none, by simp [resolve_duration, h], ?_⟩
      simp
    | some c =>
      by_cases hd : 1 < |d - c|
      · refine ⟨some (durationWarning c d), ?_, ?_⟩
        · simp [resolve_duration, h, hd]
        · simp [hd]
      · refine ⟨none, ?_, ?_⟩
        · simp [resolve_duration, h, hd]
        · simp [hd]
  · refine ⟨durationWarning 10 15, ?_⟩
    have h : (1 : Rat) < |15 - 10| := by norm_num
    simp [resolve_duration, h]
  · have h : ¬ (1 : Rat) < |21/2 - 10| := by norm_num [abs_le]
    simp [resolve_duration, h]

/-- Witness for C4: instantiates the universal part at a concrete probe and
recovers the two concrete scenarios from the theorem itself. -/
theorem resolve_duration_measured_and_warning_iff_witness :
    (∃ w : Option String,
      resolve_duration (fun _ => .ok 15) "audio.wav" (some 10) = .ok (15, w) ∧
        (w.isSome = true ↔ ∃ c, (some 10 : Option Rat) = some c ∧ 1 < |(15 : Rat) - c|)) ∧
    resolve_duration (fun _ => .ok (21/2)) "audio.wav" (some 10) = .ok (21/2, none) :=
  ⟨resolve_duration_measured_and_warning_iff.1 (fun _ => .ok 15) "audio.wav" (some 10) 15 rfl,
   resolve_duration_measured_and_warning_iff.2.2⟩

/-- **C7.** `validate_inputs` (a total function: it never raises) aggregates
all violations; for the lipsync action with both the portrait-image and the
audio parameter absent (absent or empty, which Python falsiness conflates)
it returns exactly the two missing-parameter errors, whatever the file
system looks like. -/
theorem validate_inputs_lipsync_both_missing (fsExists : String → Bool) (p : Params)
    (hp : p.portrait_image.getD "" = "") (ha : p.audio.getD "" = "") :
    validate_inputs fsExists "lipsync" p =
      ["Missing required parameter: portrait_image",
       "Missing required parameter: audio"] ∧
    (validate_inputs fsExists "lipsync" p).length = 2 := by
  constructor
  · simp [validate_inputs, hp, ha]
  · simp [validate_inputs, hp, ha]

/-- Witness for C7: the empty parameter map has both references absent. -/
theorem validate_inputs_lipsync_both_missing_witness :
    validate_inputs (fun _ => false) "lipsync" {} =
      ["Missing required parameter: portrait_image",
       "Missing required parameter: audio"] ∧
    (validate_inputs (fun _ => false) "lipsync" {}).length = 2 :=
  validate_inputs_lipsync_both_missing (fun _ => false) {} rfl rfl

/-- **C8.** For every action other than lipsync and tts (portrait and any
unrecognized action string alike), `validate_inputs` on the empty parameter
map returns the empty error list, whatever the file system looks like. -/
theorem validate_inputs_other_actions_empty (fsExists : String → Bool) (action : String)
    (h1 : action ≠ "lipsync") (h2 : action ≠ "tts") :
    validate_inputs fsExists action {} = [] := by
  unfold validate_inputs
  rw [if_neg h1, if_neg h2]
  split <;> rfl

/-- Witness for C8: instantiated both at the portrait action and at an
unrecognized action string. -/
theorem validate_inputs_other_actions_empty_witness :
    validate_inputs (fun _ => true) "portrait" {} = [] ∧
    validate_inputs (fun _ => true) "frobnicate" {} = [] :=
  ⟨validate_inputs_other_actions_empty (fun _ => true) "portrait"
      (by decide) (by decide),
   validate_inputs_other_actions_empty (fun _ => true) "frobnicate"
      (by decide) (by decide)⟩

/-- **C5.** For every parameter map, detected duration and random draw
(covering both a caller-supplied seed and one generated from the -1
sentinel), the seed literal placed in the SONICSampler node of the graph
built by `build_lipsync_workflow` lies in the inclusive range
[0, 2147483646]. -/
theorem lipsync_seed_in_range (p : Params) (d : Rat) (r : Nat) :
    ∃ s : Int, wfInput (build_lipsync_workflow p d r) "6" "seed" = some (.i s) ∧
      0 ≤ s ∧ s ≤ 2147483646 := by
  refine ⟨(if p.seed.getD (-1) = -1 then (r : Int) else p.seed.getD (-1)).emod 2147483647,
    ?_, ?_, ?_⟩
  · rfl
  · exact Int.emod_nonneg _ (by norm_num)
  · have h2 : (if p.seed.getD (-1) = -1 then (r : Int) else p.seed.getD (-1)).emod
        2147483647 < 2147483647 :=
      Int.emod_lt_of_pos _ (by norm_num)
    omega

/-- **C6 counterexample.** With the seed left at the -1 sentinel, two
invocations of the portrait builder with distinct random draws (modelling
two fresh `os.urandom` values) produce graphs that do NOT differ only in
the seed field: after erasing every seed field they are still different,
because the random seed is also embedded in the SaveImage node's filename
field. -/
theorem portrait_seed_graphs_differ_beyond_seed_field :
    scrubSeed (build_portrait_workflow {} 0) ≠ scrubSeed (build_portrait_workflow {} 1) := by
  decide

/-- **C6 (amended).** With a fixed caller seed different from -1, two
invocations of any of the three builders on identical resolved inputs
produce identical graphs; with the seed resolving to -1, two invocations
of the tts and lipsync builders produce graphs that differ at most in the
seed field, while two invocations of the portrait builder differ at most
in the seed field and the seed-derived filename field of the SaveImage
node. -/
theorem builders_deterministic :
    (∀ (p : Params) (d : Rat) (s : Int) (r1 r2 : Nat), p.seed = some s → s ≠ -1 →
      build_portrait_workflow p r1 = build_portrait_workflow p r2 ∧
      build_tts_workflow p r1 = build_tts_workflow p r2 ∧
      build_lipsync_workflow p d r1 = build_lipsync_workflow p d r2) ∧
    (∀ (p : Params) (d : Rat) (r1 r2 : Nat),
      scrubSeed (build_tts_workflow p r1) = scrubSeed (build_tts_workflow p r2) ∧
      scrubSeed (build_lipsync_workflow p d r1) = scrubSeed (build_lipsync_workflow p d r2) ∧
      scrubPortrait (build_portrait_workflow p r1) = scrubPortrait (build_portrait_workflow p r2)) := by
  constructor
  · intro p d s r1 r2 hseed hs
    refine ⟨?_, ?_, ?_⟩ <;>
      simp [build_portrait_workflow, build_tts_workflow, build_lipsync_workflow,
        hseed, hs]
  · intro p d r1 r2
    exact ⟨rfl, rfl, rfl⟩

/-- Witness for the amended C6: at the concrete parameter map fixing
seed 42, the three builders are insensitive to the random draw. -/
theorem builders_deterministic_witness :
    build_portrait_workflow { seed := some 42 } 0 = build_portrait_workflow { seed := some 42 } 1 ∧
    build_tts_workflow { seed := some 42 } 0 = build_tts_workflow { seed := some 42 } 1 ∧
    build_lipsync_workflow { seed := some 42 } 10 0 = build_lipsync_workflow { seed := some 42 } 10 1 :=
  builders_deterministic.1 { seed := some 42 } 10 42 0 1 rfl (by decide)

/-- In a single-key node output, `entriesUnder` returns the stored list
exactly when the key matches. -/
theorem entriesUnder_single (k key : String) (es : List FileEntry) :
    entriesUnder [(k, es)] key = if key = k then es else [] := by
  by_cases h : key = k
  · simp [entriesUnder, List.lookup, h]
  · have hb : (key == k) = false := by simp [h]
    simp [entriesUnder, List.lookup, hb, h]

/-- **C3 counterexample.** The extractor recognizes exactly one audio key,
"audio": an entry filed under an alternative audio-named key (such as
"audios" or "audio_tensor") contributes no descriptor at all, refuting the
claim that entries under any of several audio-named keys are classified as
audio. -/
theorem extractor_single_audio_key :
    get_output_files [("3", [("audios", [{ filename := "speech.wav" }])])] = [] ∧
    get_output_files [("3", [("audio_tensor", [{ filename := "speech.wav" }])])] = [] ∧
    get_output_files [("3", [("audio", [{ filename := "speech.wav" }])])] =
      [{ ftype := "audio", filename := "speech.wav", subfolder := "",
         path := "/workspace/ComfyUI/output/speech.wav" }] := by
  refine ⟨?_, ?_, ?_⟩ <;> decide

/-- **C3 (amended).** For every node output scanned by the extractor: an
entry under the "images" key is classified as image, under the "gifs" or
the "videos" key as video, under the single "audio" key as audio; entries
under every other key contribute no descriptors; and an empty outputs map
yields an empty descriptor list. -/
theorem extractor_classification :
    (∀ (nid : String) (es : List FileEntry),
      get_output_files [(nid, [("images", es)])] = es.map (entryDescriptor "image")) ∧
    (∀ (nid : String) (es : List FileEntry),
      get_output_files [(nid, [("gifs", es)])] = es.map (entryDescriptor "video")) ∧
    (∀ (nid : String) (es : List FileEntry),
      get_output_files [(nid, [("videos", es)])] = es.map (entryDescriptor "video")) ∧
    (∀ (nid : String) (es : List FileEntry),
      get_output_files [(nid, [("audio", es)])] = es.map (entryDescriptor "audio")) ∧
    (∀ k : String, k ∉ (["images", "gifs", "videos", "audio"] : List String) →
      ∀ (nid : String) (es : List FileEntry),
      get_output_files [(nid, [(k, es)])] = []) ∧
    get_output_files ([] : Outputs) = [] := by
  refine ⟨?_, ?_, ?_, ?_, ?_, rfl⟩
  · intro nid es
    simp [get_output_files, entriesUnder_single]
  · intro nid es
    simp [get_output_files, entriesUnder_single]
  · intro nid es
    simp [get_output_files, entriesUnder_single]
  · intro nid es
    simp [get_output_files, entriesUnder_single]
  · intro k hk nid es
    have h1 : "images" ≠ k := fun hh => hk (by rw [← hh]; simp)
    have h2 : "gifs" ≠ k := fun hh => hk (by rw [← hh]; simp)
    have h3 : "videos" ≠ k := fun hh => hk (by rw [← hh]; simp)
    have h4 : "audio" ≠ k := fun hh => hk (by rw [← hh]; simp)
    simp [get_output_files, entriesUnder_single, h1, h2, h3, h4]

/-- Witness for the amended C3: an unrecognized key yields nothing, an
"images"-keyed entry yields an image descriptor. -/
theorem extractor_classification_witness :
    get_output_files [("7", [("unknown_key", [{ filename := "x.bin" }])])] = [] ∧
    get_output_files [("9", [("images", [{ filename := "portrait.png" }])])] =
      [entryDescriptor "image" { filename := "portrait.png" }] :=
  ⟨extractor_classification.2.2.2.2.1 "unknown_key" (by decide) "7"
      [{ filename := "x.bin" }],
   extractor_classification.1 "9" [{ filename := "portrait.png" }]⟩

/-- **C1 counterexample.** With remote storage configured and the upload
failing, the delivery result does carry the inline base64 payload and the
upload-error annotation — but the post-batch cleanup step nevertheless
deletes the local copy of that very file, contrary to the claim that only
files whose remote delivery succeeded are deleted. -/
theorem upload_failure_file_still_deleted :
    (deliverAndCleanup envUploadFail [fOut]).1 =
      [{ rtype := "video", filename := "out.mp4", data := some "QUJD",
         encoding := some "base64", upload_error := some "upload boom" }] ∧
    "/workspace/ComfyUI/output/out.mp4" ∈ (deliverAndCleanup envUploadFail [fOut]).2 := by
  exact ⟨rfl, by decide⟩

/-- **C1 (amended).** When remote storage is configured and the upload of
an output file fails, the delivery result for that file contains the
inline base64 payload together with the upload-error annotation; however
the post-batch cleanup step runs whenever remote storage is configured and
deletes every existing local output file of the batch, the failed-upload
files included; only when remote storage is not configured is nothing
deleted. -/
theorem upload_failure_inline_fallback_and_cleanup :
    (∀ (env : Env) (i : Nat) (f : OutFile) (e : String),
      env.supabase = true → env.fsExists f.path = true →
      env.upload f.path (remotePath env i f.filename) = .error e →
      deliverOne env i f = some
        { rtype := f.ftype, filename := f.filename,
          data := some (env.fsContent f.path), encoding := some "base64",
          upload_error := some e }) ∧
    (∀ (env : Env) (files : List OutFile) (f : OutFile),
      env.supabase = true → f ∈ files → f.path ≠ "" → env.fsExists f.path = true →
      f.path ∈ (deliverAndCleanup env files).2) ∧
    (∀ (env : Env) (files : List OutFile),
      env.supabase = false → (deliverAndCleanup env files).2 = []) := by
  refine ⟨?_, ?_, ?_⟩
  · intro env i f e hs hex hup
    simp [deliverOne, hs, hex, hup]
  · intro env files f hs hmem hne hex
    simp only [deliverAndCleanup, hs, if_true]
    simp only [cleanup_output_files, List.mem_filterMap]
    exact ⟨f, hmem, by simp [hne, hex]⟩
  · intro env files hs
    simp [deliverAndCleanup, hs]

/-- Witness for the amended C1, at the concrete failing-upload environment
and at a storage-less environment. -/
theorem upload_failure_inline_fallback_and_cleanup_witness :
    deliverOne envUploadFail 0 fOut =
      some { rtype := "video", filename := "out.mp4", data := some "QUJD",
             encoding := some "base64", upload_error := some "upload boom" } ∧
    fOut.path ∈ (deliverAndCleanup envUploadFail [fOut]).2 ∧
    (deliverAndCleanup env0 [fOut]).2 = [] :=
  ⟨upload_failure_inline_fallback_and_cleanup.1 envUploadFail 0 fOut "upload boom"
      rfl rfl rfl,
   upload_failure_inline_fallback_and_cleanup.2.1 envUploadFail [fOut] fOut
      rfl (by simp) (by decide) rfl,
   upload_failure_inline_fallback_and_cleanup.2.2 env0 [fOut] rfl⟩

/-- **C9.** Without remote storage, a file strictly below the 10 MiB
ceiling is delivered as inline base64 content with an encoding field and
nothing else beyond type and filename (in particular no path and no size
field, which are `none` in the record literal), while a file at or above
the ceiling is delivered as a local path with a byte size and no inline
content. -/
theorem no_supabase_inline_versus_path :
    ∀ (env : Env) (i : Nat) (f : OutFile),
      env.supabase = false → env.fsExists f.path = true →
      (env.fsSize f.path < 10 * 1024 * 1024 →
        deliverOne env i f = some
          { rtype := f.ftype, filename := f.filename,
            data := some (env.fsContent f.path), encoding := some "base64" }) ∧
      (10 * 1024 * 1024 ≤ env.fsSize f.path →
        deliverOne env i f = some
          { rtype := f.ftype, filename := f.filename,
            path := some f.path, size_bytes := some (env.fsSize f.path) }) := by
  intro env i f hs hex
  constructor
  · intro hlt
    simp [deliverOne, hs, hex, hlt]
  · intro hge
    simp [deliverOne, hs, hex, Nat.not_lt.mpr hge]

/-- Witness for C9: a 5-byte file is inlined, a 10 MiB file is returned as
path and size. -/
theorem no_supabase_inline_versus_path_witness :
    deliverOne envSmallFile 0 fOut =
      some { rtype := "video", filename := "out.mp4", data := some "QUJD",
             encoding := some "base64" } ∧
    deliverOne envBigFile 0 fOut =
      some { rtype := "video", filename := "out.mp4",
             path := some "/workspace/ComfyUI/output/out.mp4",
             size_bytes := some 10485760 } :=
  ⟨(no_supabase_inline_versus_path envSmallFile 0 fOut rfl rfl).1 (by decide),
   (no_supabase_inline_versus_path envBigFile 0 fOut rfl rfl).2 (by decide)⟩

/-- Every terminal condition of `runStage` produces a response with a
status field. -/
theorem runStage_status_isSome (env : Env) (input : Params) (action : String)
    (wf : Workflow) (warnings : List String) :
    (runStage env input action wf warnings).status.isSome = true := by
  unfold runStage
  cases env.queue wf with
  | error e => rfl
  | ok prompt_id =>
    dsimp only
    cases env.wait prompt_id with
    | error e => rfl
    | ok history =>
      dsimp only
      split
      · rfl
      · split
        · rfl
        · rfl

/-- **C2 counterexample.** For the debug action the handler returns the
raw `get_debug_info` dictionary, which contains no top-level status
field. -/
theorem debug_response_has_no_status :
    (handler env0 { action := some "debug" }).status = none := rfl

/-- **C2 (amended).** The handler is a total function of its environment
and input — every exception a stage raises is an `Except.error` consumed
inside it, so no exception reaches the caller — and for every input whose
action (after defaulting) is not "debug", the returned dictionary contains
a top-level status field; the debug action alone returns the status-less
debug-info dictionary. -/
theorem handler_status_isSome (env : Env) (input : Params)
    (h : input.action.getD "portrait" ≠ "debug") :
    (handler env input).status.isSome = true := by
  obtain ⟨a, ha⟩ : ∃ a, input.action.getD "portrait" = a := ⟨_, rfl⟩
  rw [ha] at h
  by_cases h1 : a = "health"
  · subst h1
    simp [handler, ha, healthResp]
  · by_cases h2 : a = "debug"
    · exact absurd h2 h
    · by_cases h3 : validate_inputs env.fsExists a input = []
      · cases hc : env.comfyStart with
        | error e => simp [handler, ha, h1, h2, h3, hc, topError]
        | ok u =>
          by_cases h4 : a = "portrait"
          · subst h4
            simp [handler, ha, h3, hc, runStage_status_isSome]
          · by_cases h5 : a = "tts"
            · subst h5
              simp [handler, ha, h3, hc, runStage_status_isSome]
            · by_cases h6 : a = "lipsync"
              · subst h6
                cases hr : resolve_duration env.probe
                    (ospj COMFYUI_INPUT (input.audio.getD "")) input.duration with
                | error e => simp [handler, ha, h3, hc, hr, topError]
                | ok dw => simp [handler, ha, h3, hc, hr, runStage_status_isSome]
              · simp [handler, ha, h1, h2, h3, h4, h5, h6, hc]
      · simp [handler, ha, h1, h2, h3]

/-- Witness for the amended C2: the health action yields a response with a
status field. -/
theorem handler_status_isSome_witness :
    (handler env0 { action := some "health" }).status.isSome = true :=
  handler_status_isSome env0 { action := some "health" } (by decide)

/-- **C10.** An input event without an "action" key is handled exactly as
if the action were "portrait": the response is identical to the explicit
portrait request, so no unknown-action error is produced. -/
theorem missing_action_defaults_to_portrait (env : Env) (p : Params) :
    handler env { p with action := none } =
      handler env { p with action := some "portrait" } := rfl

end ComfyHandler
